import Mathlib

/-!  Shallow embedding of the polaris-based discovery resolver: the current
resolver file and the older combined file of the same package, together with
theorems checking the specification claims about resolution, watching and
instance translation.  Registry calls are modelled as explicit inputs: an
`Option` whose `none` case stands for the call itself erroring. -/

namespace Polaris

/-- Constant defaultWeight from both files (value 10). -/
def defaultWeight : Int := 10

/-- Constant polarisDefaultNamespace from the resolver file. -/
def polarisDefaultNamespace : String := "default"

/-- Constant PolarisDefaultNamespace from the older combined file. -/
def PolarisDefaultNamespace : String := "default"

/-- The parts of a raw registry instance record (polaris model.Instance) that
this code reads: GetHost, GetPort, GetProtocol, GetWeight. -/
structure RawInstance where
  host : String
  port : Nat
  protocol : String
  weight : Int
  deriving DecidableEq

/-- The kitex discovery instance value as built by discovery.NewInstance
(network, address, weight, tags). -/
structure KitexInstance where
  network : String
  address : String
  weight : Int
  tags : List (String × String)
  deriving DecidableEq

/-- discovery.NewInstance from the kitex discovery package. -/
def NewInstance (network address : String) (weight : Int)
    (tags : List (String × String)) : KitexInstance :=
  { network := network, address := address, weight := weight, tags := tags }

/-- discovery.Result: a resolve result. -/
structure Result where
  Cacheable : Bool
  CacheKey : String
  Instances : List KitexInstance
  deriving DecidableEq

/-- discovery.Change: one membership transition. -/
structure Change where
  Result : Result
  Added : List KitexInstance
  Updated : List KitexInstance
  Removed : List KitexInstance
  deriving DecidableEq

/-- The Go zero value discovery.Result\x7b\x7d. -/
def emptyResult : Result :=
  { Cacheable := false, CacheKey := "", Instances := [] }

/-- The Go zero value discovery.Change\x7b\x7d, as initialised in Watcher. -/
def emptyChange : Change :=
  { Result := emptyResult, Added := [], Updated := [], Removed := [] }

/-- The parts of rpcinfo.EndpointInfo that Target reads: ServiceName and the
Tag lookup. -/
structure EndpointInfo where
  serviceName : String
  tags : List (String × String)
  deriving DecidableEq

/-- EndpointInfo.Tag: the (value, ok) tag lookup, as an Option. -/
def EndpointInfo.Tag (info : EndpointInfo) (key : String) : Option String :=
  info.tags.lookup key

/-- Target from the resolver file: writes the namespace tag when present,
otherwise the default namespace, then ":", then the service name, into a
string builder; returns the built string. -/
def Target (target : EndpointInfo) : String :=
  (match target.Tag "namespace" with
   | some ns => ns
   | none => polarisDefaultNamespace) ++ ":" ++ target.serviceName

/-- Target from the older combined file: returns just the service name. -/
def PolarisResolver_Target (target : EndpointInfo) : String :=
  target.serviceName

/-- One Before/After pair of model.InstanceUpdate. -/
structure UpdateInstancePair where
  Before : RawInstance
  After : RawInstance
  deriving DecidableEq

/-- model.InstanceAddEvent: the added-instance sub-list. -/
structure InstanceAddEvent where
  Instances : List RawInstance
  deriving DecidableEq

/-- model.InstanceUpdateEvent: the update-pair sub-list. -/
structure InstanceUpdateEvent where
  UpdateList : List UpdateInstancePair
  deriving DecidableEq

/-- model.InstanceDeleteEvent: the removed-instance sub-list. -/
structure InstanceDeleteEvent where
  Instances : List RawInstance
  deriving DecidableEq

/-- model.InstanceEvent: three nil-able sub-events (nil as none). -/
structure InstanceEvent where
  AddEvent : Option InstanceAddEvent
  UpdateEvent : Option InstanceUpdateEvent
  DeleteEvent : Option InstanceDeleteEvent
  deriving DecidableEq

/-- An event read from the watch event channel.  Watcher only consumes its
subscribe-event type (instance-membership or anything else) and, when the
type is api.EventInstance, the model.InstanceEvent payload. -/
inductive SubscribeEvent where
  | instanceEvent (e : InstanceEvent)
  | otherEvent
  deriving DecidableEq

/-- Which branch of the two-way select in Watcher fires: context
cancellation, or arrival of one event on the event channel. -/
inductive WatchTrigger where
  | ctxDone
  | event (e : SubscribeEvent)
  deriving DecidableEq

/-- The field of the WatchService response that Watcher consumes:
GetAllInstancesResp.Instances, a nil-able slice (nil as none). -/
structure WatchServiceResponse where
  allInstances : Option (List RawInstance)
  deriving DecidableEq

/-- Watcher from the resolver file.  `translate` stands for
ChangePolarisInstanceToKitex, which is defined elsewhere in the repository;
every claim about Watcher holds for an arbitrary translation function.
`watchCall` is the outcome of consumer.WatchService: `none` means that call
errored — the code then logs at fatal level (the polaris base logger does
not terminate the process) and dereferences the nil response, a panic, so no
value is ever returned to the caller; that path is modelled as result
`none`.  `trigger` records which select branch fires.  The returned pair
mirrors the Go pair (discovery.Change, error), with `none` for a nil
error — both return statements in the source return a nil error. -/
def Watcher (translate : RawInstance → KitexInstance) (desc : String)
    (watchCall : Option WatchServiceResponse) (trigger : WatchTrigger) :
    Option (Change × Option String) :=
  match watchCall with
  | none => none
  | some watchRsp =>
    let eps : List KitexInstance :=
      match watchRsp.allInstances with
      | none => []
      | some instances => instances.map translate
    let result : Result :=
      { Cacheable := true, CacheKey := desc, Instances := eps }
    match trigger with
    | .ctxDone => some (emptyChange, none)
    | .event ev =>
      match ev with
      | .otherEvent => some (emptyChange, none)
      | .instanceEvent insEvent =>
        let add : List KitexInstance :=
          match insEvent.AddEvent with
          | none => []
          | some a => a.Instances.map translate
        let update : List KitexInstance :=
          match insEvent.UpdateEvent with
          | none => []
          | some u => u.UpdateList.map (fun p => translate p.After)
        let remove : List KitexInstance :=
          match insEvent.DeleteEvent with
          | none => []
          | some d => d.Instances.map translate
        some ({ Result := result, Added := add, Updated := update,
                Removed := remove }, none)

/-- Resolve from the resolver file.  `queryCall` is the outcome of
consumer.GetInstances: `none` means the call errored — the code logs at
fatal level and then dereferences the nil response, a panic, so no value is
returned (modelled as `none`); otherwise it carries the nil-able instance
slice of the response.  The returned pair mirrors the Go pair
(discovery.Result, error), with `none` for a nil error. -/
def Resolve (translate : RawInstance → KitexInstance) (desc : String)
    (queryCall : Option (Option (List RawInstance))) :
    Option (Result × Option String) :=
  match queryCall with
  | none => none
  | some instancesOpt =>
    let eps : List KitexInstance :=
      match instancesOpt with
      | none => []
      | some instances => instances.map translate
    if eps.length = 0 then
      some (emptyResult, some ("no instance remains for " ++ desc))
    else
      some ({ Cacheable := true, CacheKey := desc, Instances := eps }, none)

/-- The per-instance translation inlined in the loop of the older combined
file Resolve: substitute the default weight when the reported weight is not
positive, build the "host:port" address, and call discovery.NewInstance with
the protocol and the zero-valued info.Tags (a nil map, modelled as the empty
list). -/
def PolarisResolver_translate (inst : RawInstance) : KitexInstance :=
  let weight := if inst.weight ≤ 0 then defaultWeight else inst.weight
  let addr := inst.host ++ ":" ++ toString inst.port
  NewInstance inst.protocol addr weight []

/-- Resolve from the older combined file.  Same shape as the resolver file
Resolve, with the translation inlined; its error path calls the standard
library log.Fatalf, which exits the process, so that path is also modelled
as `none`. -/
def PolarisResolver_Resolve (desc : String)
    (queryCall : Option (Option (List RawInstance))) :
    Option (Result × Option String) :=
  match queryCall with
  | none => none
  | some instancesOpt =>
    let eps : List KitexInstance :=
      match instancesOpt with
      | none => []
      | some instances => instances.map PolarisResolver_translate
    if eps.length = 0 then
      some (emptyResult, some ("no instance remains for " ++ desc))
    else
      some ({ Cacheable := true, CacheKey := desc, Instances := eps }, none)

/-- A concrete translation function, of the shape the specification gives
for the instance translator; used to instantiate universally quantified
theorems at concrete inputs. -/
def exampleTranslate (inst : RawInstance) : KitexInstance :=
  NewInstance inst.protocol (inst.host ++ ":" ++ toString inst.port)
    (if inst.weight ≤ 0 then defaultWeight else inst.weight) []

/-- A concrete raw instance used to instantiate theorems. -/
def rawA : RawInstance :=
  { host := "10.0.0.1", port := 8080, protocol := "tcp", weight := 0 }

/-- Another concrete raw instance used to instantiate theorems. -/
def rawB : RawInstance :=
  { host := "10.0.0.2", port := 8080, protocol := "tcp", weight := 5 }

/-- A concrete descriptor with an explicit namespace tag. -/
def taggedDescriptor : EndpointInfo :=
  { serviceName := "svc", tags := [("namespace", "ns")] }

/-- Claim C1: a Watch invocation that receives an instance-membership event
returns a Change whose Added, Updated and Removed lists are the translated
forms of the event sub-lists in source order (Updated keeping only the After
value of each pair, the Before value discarded), and whose Result is the
ResolveResult built from the subscription-open snapshot, independent of the
just-observed event. -/
theorem watcher_instance_event_change (translate : RawInstance → KitexInstance)
    (desc : String) (watchRsp : WatchServiceResponse) (insEvent : InstanceEvent) :
    Watcher translate desc (some watchRsp) (.event (.instanceEvent insEvent)) =
      some
        ({ Result :=
             { Cacheable := true, CacheKey := desc,
               Instances := (watchRsp.allInstances.getD []).map translate },
           Added := ((insEvent.AddEvent.map (fun a => a.Instances)).getD []).map
             translate,
           Updated := ((insEvent.UpdateEvent.map (fun u => u.UpdateList)).getD
             []).map (fun p => translate p.After),
           Removed := ((insEvent.DeleteEvent.map (fun d => d.Instances)).getD
             []).map translate },
         none) := by
  obtain ⟨aio⟩ := watchRsp
  obtain ⟨ae, ue, de⟩ := insEvent
  cases aio <;> cases ae <;> cases ue <;> cases de <;> rfl

/-- Claim C2: given that the registry query itself answered, Resolve reports
the no-instances failure exactly when the answer is a nil or empty instance
list, and a nil-error return always carries a non-empty endpoint list; both
files behave this way. -/
theorem resolve_no_instances_iff (translate : RawInstance → KitexInstance)
    (desc : String) (instancesOpt : Option (List RawInstance)) :
    ((∃ msg, Resolve translate desc (some instancesOpt) =
        some (emptyResult, some msg)) ↔ instancesOpt.getD [] = []) ∧
    (∀ r, Resolve translate desc (some instancesOpt) = some (r, none) →
        instancesOpt.getD [] ≠ [] ∧ r.Instances ≠ []) ∧
    ((∃ msg, PolarisResolver_Resolve desc (some instancesOpt) =
        some (emptyResult, some msg)) ↔ instancesOpt.getD [] = []) ∧
    (∀ r, PolarisResolver_Resolve desc (some instancesOpt) = some (r, none) →
        instancesOpt.getD [] ≠ [] ∧ r.Instances ≠ []) := by
  refine ⟨?_, ?_, ?_, ?_⟩ <;>
    rcases instancesOpt with _ | (_ | ⟨x, xs⟩) <;>
      simp [Resolve, PolarisResolver_Resolve, emptyResult]

/-- Witness for claim C2 at a concrete empty registry answer. -/
theorem resolve_no_instances_iff_witness :
    ((∃ msg, Resolve exampleTranslate "default:ghost" (some none) =
        some (emptyResult, some msg)) ↔
      (none : Option (List RawInstance)).getD [] = []) ∧
    (∀ r, Resolve exampleTranslate "default:ghost" (some none) =
        some (r, none) →
      (none : Option (List RawInstance)).getD [] ≠ [] ∧ r.Instances ≠ []) ∧
    ((∃ msg, PolarisResolver_Resolve "default:ghost" (some none) =
        some (emptyResult, some msg)) ↔
      (none : Option (List RawInstance)).getD [] = []) ∧
    (∀ r, PolarisResolver_Resolve "default:ghost" (some none) =
        some (r, none) →
      (none : Option (List RawInstance)).getD [] ≠ [] ∧ r.Instances ≠ []) :=
  resolve_no_instances_iff exampleTranslate "default:ghost" none

/-- Claim C3, recording the code bug: when the underlying registry call
errors, neither Resolve nor Watcher surfaces a RegistryError failure to the
caller — both log at fatal level and then crash (nil-response dereference,
or process exit in the older file), so no return value at all is produced;
the crash is the `none` outcome of the model. -/
theorem registry_error_crashes (translate : RawInstance → KitexInstance)
    (desc : String) (trigger : WatchTrigger) :
    Resolve translate desc none = none ∧
    PolarisResolver_Resolve desc none = none ∧
    Watcher translate desc none trigger = none :=
  ⟨rfl, rfl, rfl⟩

/-- Counterexample for claim C4: the Target of the older combined file
ignores the namespace tag; on a descriptor whose namespace tag is "ns" and
whose service name is "svc" it returns "svc", not the concatenation
"ns" ++ ":" ++ "svc" that the claim requires. -/
theorem target_companion_counterexample :
    PolarisResolver_Target taggedDescriptor = "svc" ∧
    PolarisResolver_Target taggedDescriptor ≠ "ns" ++ ":" ++ "svc" := by
  refine ⟨rfl, ?_⟩
  decide

/-- Amended claim C4: the resolver-file Target is deterministic and total
with output (namespace tag, or the default namespace when the tag is
absent) ++ ":" ++ serviceName, and an untagged descriptor yields the same
string as one tagged with the default namespace; the Target of the older
combined file is deterministic and total but returns the bare service name,
omitting the namespace and separator (untagged and default-tagged
descriptors still coincide for it). -/
theorem target_canonical (t : EndpointInfo) (name : String) :
    Target t =
      (match t.Tag "namespace" with
       | some ns => ns
       | none => polarisDefaultNamespace) ++ ":" ++ t.serviceName ∧
    Target { serviceName := name, tags := [] } =
      Target { serviceName := name,
               tags := [("namespace", polarisDefaultNamespace)] } ∧
    PolarisResolver_Target t = t.serviceName ∧
    PolarisResolver_Target { serviceName := name, tags := [] } =
      PolarisResolver_Target
        { serviceName := name,
          tags := [("namespace", PolarisDefaultNamespace)] } := by
  refine ⟨rfl, ?_, rfl, rfl⟩
  rfl

/-- Claim C5: the instance-translation step of the older combined file
substitutes the default weight for a non-positive reported weight and keeps
a positive weight unchanged, and the default weight constant is 10. -/
theorem translate_weight_default (inst : RawInstance) :
    (PolarisResolver_translate inst).weight =
      (if inst.weight ≤ 0 then defaultWeight else inst.weight) ∧
    defaultWeight = 10 :=
  ⟨rfl, rfl⟩

/-- Claim C6: a Watch invocation whose context is cancelled before any event
arrives returns the empty Change and a nil error. -/
theorem watcher_cancelled_empty (translate : RawInstance → KitexInstance)
    (desc : String) (watchRsp : WatchServiceResponse) :
    Watcher translate desc (some watchRsp) .ctxDone =
      some (emptyChange, none) := rfl

/-- Claim C7: a Watch invocation that receives an event whose kind is not an
instance-membership event returns the empty Change and a nil error. -/
theorem watcher_other_event_empty (translate : RawInstance → KitexInstance)
    (desc : String) (watchRsp : WatchServiceResponse) :
    Watcher translate desc (some watchRsp) (.event .otherEvent) =
      some (emptyChange, none) := rfl

/-- Claim C8: when the registry query succeeds with a non-empty instance
list, Resolve returns cacheable true, the cache key it was called with, the
translated instances in registry-reported order, and a nil error. -/
theorem resolve_success_result (translate : RawInstance → KitexInstance)
    (desc : String) (inst : RawInstance) (rest : List RawInstance) :
    Resolve translate desc (some (some (inst :: rest))) =
      some ({ Cacheable := true, CacheKey := desc,
              Instances := (inst :: rest).map translate }, none) := rfl

/-- Counterexample for claim C9: with a subscription-open snapshot of zero
instances, a Watch that then receives an instance-membership event returns,
with a nil error, a Change whose result has an empty endpoints sequence — no
distinct error is reported on this path. -/
theorem watch_empty_snapshot_counterexample :
    Watcher exampleTranslate "default:ghost" (some { allInstances := none })
        (.event (.instanceEvent
          { AddEvent := none, UpdateEvent := none, DeleteEvent := none })) =
      some ({ Result := { Cacheable := true, CacheKey := "default:ghost",
                          Instances := [] },
              Added := [], Updated := [], Removed := [] }, none) := rfl

/-- Amended claim C9: Resolve never returns a nil-error result with an empty
endpoints sequence (an empty registry answer yields the no-instances error
instead), but the snapshot step inside Watch performs no such check: the
Change returned for an instance-membership event carries exactly the
translated subscription-open snapshot as its result, which is empty whenever
the registry reported zero instances at subscription open. -/
theorem resolve_nonempty_watch_unchecked (translate : RawInstance → KitexInstance)
    (desc : String) (instancesOpt : Option (List RawInstance))
    (insEvent : InstanceEvent) (r : Result)
    (h : Resolve translate desc (some instancesOpt) = some (r, none)) :
    r.Instances ≠ [] ∧
    ∃ c, Watcher translate desc (some { allInstances := instancesOpt })
        (.event (.instanceEvent insEvent)) = some (c, none) ∧
      c.Result.Instances = (instancesOpt.getD []).map translate := by
  constructor
  · rcases instancesOpt with _ | (_ | ⟨x, xs⟩)
    · simp [Resolve] at h
    · simp [Resolve] at h
    · simp [Resolve] at h
      subst h
      simp
  · obtain ⟨ae, ue, de⟩ := insEvent
    rcases instancesOpt with _ | l <;> cases ae <;> cases ue <;> cases de <;>
      exact ⟨_, rfl, rfl⟩

/-- Witness for amended claim C9 at a concrete two-instance registry
answer. -/
theorem resolve_nonempty_watch_unchecked_witness :
    Resolve exampleTranslate "default:orders" (some (some [rawA, rawB])) =
      some ({ Cacheable := true, CacheKey := "default:orders",
              Instances := [exampleTranslate rawA, exampleTranslate rawB] },
            none) ∧
    (({ Cacheable := true, CacheKey := "default:orders",
        Instances := [exampleTranslate rawA, exampleTranslate rawB] } :
          Result).Instances ≠ [] ∧
     ∃ c, Watcher exampleTranslate "default:orders"
         (some { allInstances := some [rawA, rawB] })
         (.event (.instanceEvent
           { AddEvent := none, UpdateEvent := none, DeleteEvent := none })) =
         some (c, none) ∧
       c.Result.Instances =
         ((some [rawA, rawB] : Option (List RawInstance)).getD []).map
           exampleTranslate) :=
  ⟨rfl, resolve_nonempty_watch_unchecked exampleTranslate "default:orders"
    (some [rawA, rawB])
    { AddEvent := none, UpdateEvent := none, DeleteEvent := none } _ rfl⟩

/-- Claim C10: an instance-membership event whose three sub-events are all
absent yields a Change that is not the empty Change: its result is the
cacheable, keyed subscription-open snapshot result while the added, updated
and removed lists are all empty. -/
theorem watcher_bare_instance_event (translate : RawInstance → KitexInstance)
    (desc : String) (instancesOpt : Option (List RawInstance)) :
    Watcher translate desc (some { allInstances := instancesOpt })
        (.event (.instanceEvent
          { AddEvent := none, UpdateEvent := none, DeleteEvent := none })) =
      some ({ Result := { Cacheable := true, CacheKey := desc,
                          Instances := (instancesOpt.getD []).map translate },
              Added := [], Updated := [], Removed := [] }, none) ∧
    ({ Result := { Cacheable := true, CacheKey := desc,
                   Instances := (instancesOpt.getD []).map translate },
       Added := [], Updated := [], Removed := [] } : Change) ≠ emptyChange := by
  constructor
  · rcases instancesOpt with _ | l <;> rfl
  · intro hcontra
    simp [emptyChange, emptyResult, Change.mk.injEq, Result.mk.injEq] at hcontra

end Polaris
